import Mathlib

/-!
Shallow embedding of the core of the ShineOn-Virtual-Tryon repository:
the MultiSpade conditional-normalization stack
(src/models/networks/sams/multispade.py), the SamsGenerator architecture
builder and forward-pass preparation
(src/models/networks/sams/sams_generator.py), and the UnetMaskModel
temporal compositor and training step (src/models/unet_mask_model.py).

Learned library components (the U-net, SPADE layers, Resample2d warping,
tanh/sigmoid activations) and the external dataset descriptor
(TryonDataset channel constants) are treated as parameters, exactly as the
spec declares them external collaborators.  Tensors are modelled
channel-major: a tensor is a list of channels, each channel a flat list of
rational entries; the batch and spatial dimensions are folded into each
channel's flat data, since every operation the embedded code performs acts
on the channel axis (dim=1) or element-wise.
-/

/-- Python runtime errors the embedded code can raise. -/
inductive PyErr where
  | typeError
  | assertionError
  | indexError
  | keyError
  | valueError
  | runtimeError
  | attributeError
deriving DecidableEq, Repr

/-- Lexicographic comparison of character lists by code point, the order
Python uses to compare strings. -/
def charListLt : List Char → List Char → Bool
  | [], [] => false
  | [], _ :: _ => true
  | _ :: _, [] => false
  | a :: as, b :: bs => if a < b then true else if b < a then false else charListLt as bs

/-- Python string comparison ( `a < b` ), by code points. -/
def pyStrLt (a b : String) : Bool := charListLt a.data b.data

/-- Insert a keyed entry into a key-sorted association list, keeping order. -/
def insertByKey {S : Type} (p : String × S) : List (String × S) → List (String × S)
  | [] => [p]
  | q :: rest => if pyStrLt p.1 q.1 then p :: q :: rest else q :: insertByKey p rest

/-- Python `sorted(d.items())` for a string-keyed dict with unique keys:
sort the entries by key in code-point order.  This is the default
`sort_fn` of MultiSpade (multispade.py line 18). -/
def sortByKey {S : Type} : List (String × S) → List (String × S)
  | [] => []
  | p :: rest => insertByKey p (sortByKey rest)

/-- Association-list lookup modelling Python dict / `nn.ModuleDict`
subscription `self.spade_layers[key]` (multispade.py line 62); a missing
key raises `KeyError`. -/
def lookupKey {L : Type} : List (String × L) → String → Option L
  | [], _ => none
  | (k2, f) :: rest, k => if k2 = k then some f else lookupKey rest k

/-- MultiSpade.try_fix_segmaps_dict (multispade.py lines 66-76): a bare
tensor is wrapped under the single layer's key when exactly one SPADE
sub-layer exists, otherwise `ValueError` is raised.  The sub-layers are
modelled as an association list from condition name to the (learned,
external) layer function. -/
def tryFixSegmapsDict {X S : Type} (spadeLayers : List (String × (X → S → X))) (t : S) :
    Except PyErr (List (String × S)) :=
  if spadeLayers.length = 1 then
    match spadeLayers.head? with
    | some (key, _) => Except.ok [(key, t)]
    | none => Except.error PyErr.valueError
  else Except.error PyErr.valueError

/-- The sequential loop of MultiSpade.forward (multispade.py lines 61-63):
for each (key, segmap) entry in the already-sorted list, look the layer up
by key and apply it to the progressively transformed feature map. -/
def msApply {X S : Type} (spadeLayers : List (String × (X → S → X))) :
    X → List (String × S) → Except PyErr X
  | x, [] => Except.ok x
  | x, (key, segmap) :: rest =>
    match lookupKey spadeLayers key with
    | none => Except.error PyErr.keyError
    | some layer => msApply spadeLayers (layer x segmap) rest

/-- MultiSpade.forward (multispade.py lines 47-64).  The input is either a
bare tensor ( `Sum.inl` ) or a condition-map dict ( `Sum.inr` , an
association list with unique keys).  A bare tensor is first run through
`try_fix_segmaps_dict`; then the assert compares the map count with the
configured sub-layer count; then the sub-layers are applied sequentially
in the order produced by `sort_fn`. -/
def multiSpadeForward {X S : Type} (spadeLayers : List (String × (X → S → X)))
    (sortFn : List (String × S) → List (String × S)) (x : X)
    (input : Sum S (List (String × S))) : Except PyErr X :=
  match (match input with
         | Sum.inl t => tryFixSegmapsDict spadeLayers t
         | Sum.inr d => Except.ok d) with
  | Except.error e => Except.error e
  | Except.ok segmapsDict =>
    if segmapsDict.length = spadeLayers.length then
      msApply spadeLayers x (sortFn segmapsDict)
    else Except.error PyErr.assertionError

/-! ## SamsGenerator (src/models/networks/sams/sams_generator.py) -/

/-- Modelled from the spec: `TryonDataset.RGB_CHANNELS`.  The TryonDataset
descriptor lives outside the provided sources; the spec fixes the RGB
output width at 3 ("3×frame_count for rendered image", spec section 4.4,
and the generator `out_channels` is the RGB width). -/
def RGB_CHANNELS : Nat := 3

/-- Hyperparameters consumed by `SamsGenerator.__init__`
(sams_generator.py lines 91-156). -/
structure SamsHP where
  ngfBase : Nat
  ngfPowerStart : Nat
  ngfPowerEnd : Nat
  ngfPowerStep : Nat
  numMiddle : Nat
  nFramesTotal : Nat
  encoderInput : String
  personInputs : List String
  clothInputs : List String
  selfAttn : Bool
deriving Repr

/-- Python `range(start, stop, step)` for a positive step: the values
`start + k*step` that are strictly below `stop`. -/
def pyRangeUp (start stop step : Nat) : List Nat :=
  (List.range ((stop - start + step - 1) / step)).map (fun k => start + k * step)

/-- One entry of the generator pipeline, tagged as the spec's
GeneratorPipeline stages: plain convolution, SPADE residual block
( `AnySpadeResBlock` ), or a resolution-scaling step
( `nn.Upsample(scale_factor=0.5)` down, `nn.Upsample(scale_factor=2)` up). -/
inductive Stage where
  | conv (inC outC : Nat)
  | spadeResBlock (inC outC : Nat)
  | down
  | up
deriving DecidableEq, Repr

/-- Whether a stage is an encoder resolution-scaling (downsampling) step. -/
def Stage.isDown : Stage → Bool
  | Stage.down => true
  | _ => false

/-- Output channel width carried by a stage, when it has one. -/
def stageOutWidth : Stage → Option Nat
  | Stage.conv _ o => some o
  | Stage.spadeResBlock _ o => some o
  | _ => none

/-- NGF_OUTER (sams_generator.py line 103): `ngf_base ** ngf_power_start`. -/
def NGF_OUTER (hp : SamsHP) : Nat := hp.ngfBase ^ hp.ngfPowerStart

/-- NGF_INNER (sams_generator.py line 104): `ngf_base ** ngf_power_end`. -/
def NGF_INNER (hp : SamsHP) : Nat := hp.ngfBase ^ hp.ngfPowerEnd

/-- `num_prev_frames = max(hparams.n_frames_total - 1, 1)`
(sams_generator.py line 99). -/
def numPrevFrames (hp : SamsHP) : Nat := max (hp.nFramesTotal - 1) 1

/-- `self.in_channels = TryonDataset.RGB_CHANNELS * num_prev_frames`
(sams_generator.py line 100). -/
def samsInChannels (hp : SamsHP) : Nat := RGB_CHANNELS * numPrevFrames hp

/-- Encoder conditioning width
`label_channels = enc_lab_c * num_prev_frames` (sams_generator.py lines
107-110), where `enc_lab_c` is the dataset channel constant of the
configured encoder input; the dataset descriptor is external, so the
`getattr(TryonDataset, ...)` lookup is the parameter `channelsOf`. -/
def encLabelChannels (channelsOf : String → Nat) (hp : SamsHP) : Nat :=
  channelsOf hp.encoderInput * numPrevFrames hp

/-- Powers visited by the encoder loop
`for pow in range(ngf_power_start, ngf_power_end, ngf_power_step)`
(sams_generator.py lines 121-123). -/
def encRangePows (hp : SamsHP) : List Nat :=
  pyRangeUp hp.ngfPowerStart hp.ngfPowerEnd hp.ngfPowerStep

/-- Stages appended by the encoder loop (sams_generator.py lines 121-126):
for each visited power, `make_encode_block(base^pow, base^(pow+step))`,
which is a SPADE residual block followed by a downsample (lines 213-219). -/
def encLoopStages (hp : SamsHP) : List Stage :=
  (encRangePows hp).flatMap (fun pow =>
    [Stage.spadeResBlock (hp.ngfBase ^ pow) (hp.ngfBase ^ (pow + hp.ngfPowerStep)),
     Stage.down])

/-- Value of the mutable Python variable `out_feat` after the encoder loop:
initialized to NGF_OUTER (line 103) and reassigned to
`base^(pow + step)` on every loop iteration (line 125). -/
def encLastOutFeat (hp : SamsHP) : Nat :=
  match (encRangePows hp).getLast? with
  | none => NGF_OUTER hp
  | some pow => hp.ngfBase ^ (pow + hp.ngfPowerStep)

/-- `self.encode_layers` (sams_generator.py lines 113-129): the initial
plain convolution from `in_channels` to NGF_OUTER, the loop blocks, then
the forced final block `make_encode_block(out_feat, NGF_INNER)` (line 128,
"ensure we get to exactly ngf_base ** ngf_power_end"). -/
def encodeLayers (hp : SamsHP) : List Stage :=
  Stage.conv (samsInChannels hp) (NGF_OUTER hp) ::
    (encLoopStages hp ++
      [Stage.spadeResBlock (encLastOutFeat hp) (NGF_INNER hp), Stage.down])

/-- `self.middle_layers` (sams_generator.py lines 140-143): `num_middle`
SPADE residual blocks at fixed width NGF_INNER. -/
def middleLayers (hp : SamsHP) : List Stage :=
  List.replicate hp.numMiddle (Stage.spadeResBlock (NGF_INNER hp) (NGF_INNER hp))

/-- Number of encoder downsampling stages built. -/
def countDownsamples (hp : SamsHP) : Nat :=
  (encodeLayers hp).countP Stage.isDown

/-- Channel width produced by the last width-bearing encoder stage: the
width handed to the middle blocks. -/
def encoderFinalWidth (hp : SamsHP) : Nat :=
  (((encodeLayers hp).filterMap stageOutWidth).getLast?).getD 0

/-- Ceiling division, `ceil(a / b)` on naturals. -/
def ceilDiv (a b : Nat) : Nat := (a + b - 1) / b

/-- A 4-D tensor `b × c × h × w`, with its entries as a function of the
four indices. -/
structure T4 where
  batch : Nat
  channels : Nat
  height : Nat
  width : Nat
  data : Nat → Nat → Nat → Nat → ℚ

/-- A 5-D tensor `b × n × c × h × w` (previous frames stacked on a
temporal axis). -/
structure T5 where
  batch : Nat
  frames : Nat
  channels : Nat
  height : Nat
  width : Nat
  data : Nat → Nat → Nat → Nat → Nat → ℚ

/-- `tensor.view(b, -1, h, w)` on a 5-D tensor (sams_generator.py lines
176-179): the temporal axis is flattened onto the channel axis. -/
def viewFlat (t : T5) : T4 :=
  ⟨t.batch, t.frames * t.channels, t.height, t.width,
   fun b c h w => t.data b (c / t.channels) (c % t.channels) h w⟩

/-- `torch.zeros(b, c, h, w)`. -/
def zerosT4 (b c h w : Nat) : T4 := ⟨b, c, h, w, fun _ _ _ _ => 0⟩

/-- Data-preparation step of `SamsGenerator.forward` (sams_generator.py
lines 174-187), producing the pair (prev_n_frames_G, prev_n_labelmaps)
actually fed to the encoder.  When `n_frames_total > 1` the 5-D inputs are
flattened onto the channel axis (a `None` there raises
`AttributeError` at `.shape`); otherwise both are replaced by zero tensors
whose batch and spatial sizes come from the first current condition map
(an empty dict raises `IndexError` at `[0]`) and whose channel width is
`self.in_channels` for both tensors (lines 184-187). -/
def samsForwardPrep (hp : SamsHP) (prevFramesG prevLabelmaps : Option T5)
    (currentLabelmapDict : List (String × T4)) : Except PyErr (T4 × T4) :=
  if 1 < hp.nFramesTotal then
    match prevFramesG, prevLabelmaps with
    | some pf, some pl => Except.ok (viewFlat pf, viewFlat pl)
    | _, _ => Except.error PyErr.attributeError
  else
    match currentLabelmapDict with
    | [] => Except.error PyErr.indexError
    | (_, reference) :: _ =>
      Except.ok
        (zerosT4 reference.batch (samsInChannels hp) reference.height reference.width,
         zerosT4 reference.batch (samsInChannels hp) reference.height reference.width)

/-! ## UnetMaskModel (src/models/unet_mask_model.py) -/

/-- A tensor as seen by the temporal compositor: a list of channels
(dim=1, the only axis the code manipulates), each channel a flat list of
rational entries covering the batch and spatial axes. -/
abbrev Tensor := List (List ℚ)

/-- Channel slice `t[:, a:b, :, :]`. -/
def channelSlice (t : Tensor) (a b : Nat) : Tensor := (t.drop a).take (b - a)

/-- Element-wise map over a tensor (`F.tanh`, `F.sigmoid`, `1 - m`). -/
def mapT (f : ℚ → ℚ) (t : Tensor) : Tensor := t.map (List.map f)

/-- Element-wise binary operation over two tensors. -/
def zipT (f : ℚ → ℚ → ℚ) : Tensor → Tensor → Tensor := List.zipWith (List.zipWith f)

/-- Element-wise product `a * b`. -/
def tMul : Tensor → Tensor → Tensor := zipT (· * ·)

/-- Element-wise sum `a + b`. -/
def tAdd : Tensor → Tensor → Tensor := zipT (· + ·)

/-- Element-wise `1 - m`. -/
def oneMinusT : Tensor → Tensor := mapT (fun q => 1 - q)

/-- Three-way zip, modelling Python `zip(xs, ys, zs)` (truncates to the
shortest argument). -/
def zip3 {α β γ : Type} : List α → List β → List γ → List (α × β × γ)
  | a :: as, b :: bs, c :: cs => (a, b, c) :: zip3 as bs cs
  | _, _, _ => []

/-- Split a list into consecutive pieces of `k` elements (the fuel
argument only bounds the recursion and is set to the list length). -/
def chunksOfAux {α : Type} (k : Nat) : Nat → List α → List (List α)
  | 0, _ => []
  | fuel + 1, l =>
    if l.isEmpty then [] else l.take k :: chunksOfAux k fuel (l.drop k)

/-- `torch.chunk(t, n, dim=1)` on the channel list, for `n ≥ 1`: pieces of
`ceil(len / n)` channels each (fewer than `n` pieces when the channel
count is smaller); chunking a tensor with no channels yields the single
empty piece. -/
def torchChunkCore {α : Type} (l : List α) (n : Nat) : List (List α) :=
  let k := (l.length + n - 1) / n
  if k = 0 then [l] else chunksOfAux k l.length l

/-- Hyperparameters read by `UnetMaskModel.forward`. -/
structure UnetHP where
  nFramesTotal : Nat
  flow : Bool
deriving DecidableEq, Repr

/-- UnetMaskModel.forward (unet_mask_model.py lines 51-116), the Temporal
Compositor.  The learned U-net, the Resample2d flow-warp and the
tanh/sigmoid activations are library services passed as parameters;
`prevFrame` is the value of `self.prev_frame` at call time.  The embedding
follows the source line by line:

* line 55-56: `if flows is not None: assert n_frames_total <= 1`;
* lines 57-58: concatenate person and cloth on the channel axis, run the
  U-net;
* lines 62-71: split the U-net output at `3*n` and `4*n` channels into
  rendered images, composite masks and (if `hparams.flow`) weight masks,
  and apply the activations;
* lines 76-84: chunk everything into per-frame slices; `torch.chunk` on a
  `None` flows raises `TypeError`, and `torch.chunk(x, 0)` raises
  `RuntimeError`;
* lines 87-91: select frame slice `[1]` of every chunk list
  ( `IndexError` when a list has fewer than two pieces, `TypeError` when
  `weight_masks_chunked` is `None` );
* lines 93-104: the selected flow slice is a tensor, so the
  `if flows is not None` branch always runs when reached: warp
  `self.prev_frame` (a `None` cache raises `TypeError` inside Resample2d)
  and blend `(1 - weight) * warped + weight * rendered`;
* lines 107-114: alpha-composite `wc * mask + p * (1 - mask)` over the
  zip of singleton lists — because `p_rendereds_warped` is the non-empty
  singleton whenever this line is reached, the middle argument is the full
  `p_rendereds_chunked` list — and concatenate back on the channel axis. -/
def unetForward (hp : UnetHP) (unet : Tensor → Tensor)
    (resample : Tensor → Tensor → Tensor) (tanhF sigmoidF : ℚ → ℚ)
    (prevFrame : Option Tensor) (personRepresentation warpedCloths : Tensor)
    (flows : Option Tensor) : Except PyErr (Tensor × Tensor × Tensor) :=
  if flows.isSome ∧ 1 < hp.nFramesTotal then Except.error PyErr.assertionError else
  let concatTensor := personRepresentation ++ warpedCloths
  let outputs := unet concatTensor
  let boundary := 3 * hp.nFramesTotal
  let weightBoundary := 4 * hp.nFramesTotal
  let pRendereds := channelSlice outputs 0 boundary
  let mComposites := channelSlice outputs boundary weightBoundary
  let weightMasks : Option Tensor :=
    if hp.flow then some (outputs.drop weightBoundary) else none
  let pRendereds := mapT tanhF pRendereds
  let mComposites := mapT sigmoidF mComposites
  let weightMasks := weightMasks.map (mapT sigmoidF)
  match flows with
  | none => Except.error PyErr.typeError
  | some flowsT =>
    if hp.nFramesTotal = 0 then Except.error PyErr.runtimeError else
    let flowsChunked := torchChunkCore flowsT hp.nFramesTotal
    let warpedClothsChunked := torchChunkCore warpedCloths hp.nFramesTotal
    let pRenderedsChunked := torchChunkCore pRendereds hp.nFramesTotal
    let mCompositesChunked := torchChunkCore mComposites hp.nFramesTotal
    let weightMasksChunked := weightMasks.map (fun w => torchChunkCore w hp.nFramesTotal)
    match flowsChunked[1]? with
    | none => Except.error PyErr.indexError
    | some flows1 =>
      match warpedClothsChunked[1]? with
      | none => Except.error PyErr.indexError
      | some warpedCloths1 =>
        match pRenderedsChunked[1]? with
        | none => Except.error PyErr.indexError
        | some pRendereds1 =>
          match mCompositesChunked[1]? with
          | none => Except.error PyErr.indexError
          | some mComposites1 =>
            match weightMasksChunked with
            | none => Except.error PyErr.typeError
            | some wmc =>
              match wmc[1]? with
              | none => Except.error PyErr.indexError
              | some weightMasks1 =>
                match prevFrame with
                | none => Except.error PyErr.typeError
                | some pf =>
                  let warpedFlows := resample pf flows1
                  let pRenderedsWarped :=
                    [tAdd (tMul (oneMinusT weightMasks1) warpedFlows)
                       (tMul weightMasks1 pRendereds1)]
                  let middleArg :=
                    if pRenderedsWarped.isEmpty then [pRendereds1] else pRenderedsChunked
                  let pTryons :=
                    (zip3 [warpedCloths1] middleArg [mComposites1]).map
                      (fun e => tAdd (tMul e.1 e.2.2) (tMul e.2.1 (oneMinusT e.2.2)))
                  Except.ok (pRendereds1, mComposites1, pTryons.flatten)

/-- The error `UnetMaskModel.forward` raises, as a function of the
hyperparameters and the flows argument (for `n_frames_total ≥ 1`):
`TypeError` chunking a `None` flows, `AssertionError` for a flows tensor
with more than one total frame, `IndexError` selecting frame slice `[1]`
of the single chunk otherwise. -/
def forwardErr (hp : UnetHP) (flows : Option Tensor) : PyErr :=
  match flows with
  | none => PyErr.typeError
  | some _ => if 1 < hp.nFramesTotal then PyErr.assertionError else PyErr.indexError

/-- The fields of a training batch that `UnetMaskModel.training_step`
consumes (unet_mask_model.py lines 118-159).  The `get_and_cat_inputs`
util is an external collaborator, so the already-concatenated person and
cloth inputs are carried directly. -/
structure TBatch where
  image : Tensor
  clothMask : Tensor
  flow : Tensor
  personInputs : Tensor
  clothInputs : Tensor

/-- UnetMaskModel.training_step (unet_mask_model.py lines 118-159),
returning the list of values written to `self.prev_frame` in order, the
final cache value, and whether the step completed.  The step:

* line 123: `flow = batch["flow"] if self.hparams.flow else None`;
* line 124: `self.prev_frame = im[:, :3, :, :]` (first write);
* line 129: calls forward — if it raises, the exception propagates and the
  rest of the step (losses, logging, and the line-158 write
  `self.prev_frame = im`) never runs. -/
def trainingStep (hp : UnetHP) (unet : Tensor → Tensor)
    (resample : Tensor → Tensor → Tensor) (tanhF sigmoidF : ℚ → ℚ)
    (batch : TBatch) : List Tensor × Option Tensor × Except PyErr Unit :=
  let flow : Option Tensor := if hp.flow then some batch.flow else none
  let firstWrite := channelSlice batch.image 0 3
  match unetForward hp unet resample tanhF sigmoidF (some firstWrite)
      batch.personInputs batch.clothInputs flow with
  | Except.error e => ([firstWrite], some firstWrite, Except.error e)
  | Except.ok _ => ([firstWrite, batch.image], some batch.image, Except.ok ())

/-! ## Concrete instances used by witnesses and counterexamples -/

/-- Spec section 8 end-to-end scenario:
`base=2, power_start=2, power_end=4, power_step=1, num_middle=1`. -/
def hpScenario : SamsHP := ⟨2, 2, 4, 1, 1, 1, "agnostic", ["agnostic"], ["cloth"], true⟩

/-- A configuration whose stride does not divide the power interval:
`base=2, power_start=1, power_end=4, power_step=2`. -/
def hpUneven : SamsHP := ⟨2, 1, 4, 2, 2, 1, "agnostic", ["agnostic"], ["cloth"], true⟩

/-- A configuration with `n_frames_total = 2`. -/
def hpTwoFrames : SamsHP := ⟨2, 2, 4, 1, 1, 2, "agnostic", ["agnostic"], ["cloth"], true⟩

/-- A configuration whose encoder input is a 7-channel condition map
(channel widths come from the external dataset descriptor `cOfSeven`). -/
def hpSevenEnc : SamsHP := ⟨2, 2, 4, 1, 1, 1, "densepose", ["densepose"], ["cloth"], true⟩

/-- A dataset descriptor assigning 7 channels to every condition name. -/
def cOfSeven : String → Nat := fun _ => 7

/-- A concrete current condition map: batch 2, 7 channels, 4 x 4 spatial. -/
def refMap : T4 := zerosT4 2 7 4 4

/-- A two-sub-layer MultiSpade stack over natural-number stand-ins. -/
def msLayersTwo : List (String × (Nat → Nat → Nat)) :=
  [("a", fun x _ => x + 1), ("b", fun x y => x + y)]

/-- A concrete training batch: a 6-channel two-frame image, a 2-channel
cloth mask, and 1-channel flow/person/cloth tensors. -/
def batchSmall : TBatch :=
  ⟨[[1], [2], [3], [4], [5], [6]], [[0], [0]], [[0]], [[7]], [[8]]⟩

/-! ## Helper lemmas -/

theorem chunksOfAux_nil {α : Type} (k fuel : Nat) :
    chunksOfAux k fuel ([] : List α) = [] := by
  cases fuel <;> simp [chunksOfAux]

theorem torchChunkCore_one {α : Type} (l : List α) : torchChunkCore l 1 = [l] := by
  cases l with
  | nil => simp [torchChunkCore]
  | cons a t =>
    simp only [torchChunkCore, List.length_cons, Nat.add_sub_cancel, Nat.div_one,
      Nat.succ_ne_zero, if_false, chunksOfAux, List.isEmpty_cons, Bool.false_eq_true]
    rw [List.take_of_length_le (by simp), List.drop_eq_nil_of_le (by simp), chunksOfAux_nil]

theorem msApply_ne_assertionError {X S : Type} (spadeLayers : List (String × (X → S → X)))
    (x : X) (ds : List (String × S)) :
    msApply spadeLayers x ds ≠ Except.error PyErr.assertionError := by
  induction ds generalizing x with
  | nil => simp [msApply]
  | cons p rest ih =>
    obtain ⟨k, s⟩ := p
    cases hl : lookupKey spadeLayers k with
    | none => simp [msApply, hl]
    | some layer => simpa [msApply, hl] using ih (layer x s)

theorem unetForward_eq_error (hp : UnetHP) (unet : Tensor → Tensor)
    (resample : Tensor → Tensor → Tensor) (tanhF sigmoidF : ℚ → ℚ)
    (prevFrame : Option Tensor) (person warpedCloths : Tensor) (flows : Option Tensor)
    (h : 1 ≤ hp.nFramesTotal) :
    unetForward hp unet resample tanhF sigmoidF prevFrame person warpedCloths flows =
      Except.error (forwardErr hp flows) := by
  cases flows with
  | none => simp [unetForward, forwardErr]
  | some f =>
    by_cases h1 : 1 < hp.nFramesTotal
    · simp [unetForward, forwardErr, h1]
    · have hn : hp.nFramesTotal = 1 := by omega
      simp [unetForward, forwardErr, hn, torchChunkCore_one]

theorem pyRangeUp_length (start stop step : Nat) :
    (pyRangeUp start stop step).length = (stop - start + step - 1) / step := by
  simp [pyRangeUp]

theorem countDown_encLoopStages (hp : SamsHP) :
    (encLoopStages hp).countP Stage.isDown = (encRangePows hp).length := by
  unfold encLoopStages
  generalize encRangePows hp = l
  induction l with
  | nil => simp
  | cons p rest ih =>
    simp [List.countP_cons, List.countP_append, Stage.isDown, ih]

theorem encoderFinalWidth_eq (hp : SamsHP) : encoderFinalWidth hp = NGF_INNER hp := by
  have hfm : (encodeLayers hp).filterMap stageOutWidth =
      (NGF_OUTER hp :: (encLoopStages hp).filterMap stageOutWidth) ++ [NGF_INNER hp] := by
    simp [encodeLayers, List.filterMap_cons, List.filterMap_append, stageOutWidth]
  rw [encoderFinalWidth, hfm, List.getLast?_concat]
  rfl

/-! ## Claim theorems -/

/-- Claim C1 (status: code bug).  The claim says a flow-disabled forward
pass returns `garment * mask + rendered * (1 - mask)` without raising; in
the code, `torch.chunk(flows, ...)` on the `None` flows argument
(unet_mask_model.py line 76) raises `TypeError` before any compositing, so
the evaluation of the embedded forward at a concrete flow-disabled input
yields the error instead of an output. -/
theorem compositor_no_flow_raises_type_error :
    unetForward ⟨1, false⟩ id (fun _ flowsT => flowsT) id id none [[1]] [[1]] none =
      Except.error PyErr.typeError := rfl

/-- Claim C2 (status: confirmed).  For every configuration accepted at
construction, the encoder's final produced channel width — the width
entering the middle blocks — is exactly `base ^ power_end`, and every
middle block preserves that width, because the final encoder block is
forced to land on `NGF_INNER` (sams_generator.py line 128). -/
theorem bottleneck_width_eq_base_pow_end (hp : SamsHP)
    (_h1 : 1 < hp.ngfBase) (_h2 : 1 ≤ hp.ngfPowerEnd)
    (_h3 : hp.ngfPowerStart ≤ hp.ngfPowerEnd) (_h4 : 1 ≤ hp.ngfPowerStep) :
    encoderFinalWidth hp = hp.ngfBase ^ hp.ngfPowerEnd ∧
      ∀ s ∈ middleLayers hp,
        s = Stage.spadeResBlock (hp.ngfBase ^ hp.ngfPowerEnd)
              (hp.ngfBase ^ hp.ngfPowerEnd) := by
  refine ⟨encoderFinalWidth_eq hp, ?_⟩
  intro s hs
  simp [middleLayers, List.mem_replicate, NGF_INNER] at hs
  exact hs.2

theorem bottleneck_width_eq_base_pow_end_witness :
    encoderFinalWidth hpUneven = hpUneven.ngfBase ^ hpUneven.ngfPowerEnd ∧
      ∀ s ∈ middleLayers hpUneven,
        s = Stage.spadeResBlock (hpUneven.ngfBase ^ hpUneven.ngfPowerEnd)
              (hpUneven.ngfBase ^ hpUneven.ngfPowerEnd) :=
  bottleneck_width_eq_base_pow_end hpUneven (by decide) (by decide) (by decide) (by decide)

/-- Claim C3 counterexample.  On the spec's own end-to-end scenario
(`base=2, power_start=2, power_end=4, power_step=1`) the encoder builds 3
downsampling stages — the loop's 2 plus the always-appended forced final
block — while `ceil((power_end - power_start) / power_step)` is 2. -/
theorem encoder_downsample_count_counterexample :
    countDownsamples hpScenario = 3 ∧
      ceilDiv (hpScenario.ngfPowerEnd - hpScenario.ngfPowerStart) hpScenario.ngfPowerStep = 2 ∧
      (3 : Nat) ≠ 2 := by
  refine ⟨by decide, by decide, by decide⟩

/-- Claim C3 (status: corrected).  The number of encoder downsampling
stages equals `ceil((power_end - power_start) / power_step) + 1`: one per
loop iteration of sams_generator.py lines 121-126 plus the forced final
block of line 128, which is appended unconditionally. -/
theorem encoder_downsample_count (hp : SamsHP)
    (_h1 : 1 < hp.ngfBase) (_h2 : 1 ≤ hp.ngfPowerEnd)
    (_h3 : hp.ngfPowerStart ≤ hp.ngfPowerEnd) (_h4 : 1 ≤ hp.ngfPowerStep) :
    countDownsamples hp =
      ceilDiv (hp.ngfPowerEnd - hp.ngfPowerStart) hp.ngfPowerStep + 1 := by
  have hl := countDown_encLoopStages hp
  simp [countDownsamples, encodeLayers, List.countP_cons, List.countP_append, hl,
    Stage.isDown, encRangePows, pyRangeUp_length, ceilDiv]

theorem encoder_downsample_count_witness :
    countDownsamples hpUneven =
      ceilDiv (hpUneven.ngfPowerEnd - hpUneven.ngfPowerStart) hpUneven.ngfPowerStep + 1 :=
  encoder_downsample_count hpUneven (by decide) (by decide) (by decide) (by decide)

/-- Claim C4 (status: confirmed).  With the default sort, a condition-map
set with keys "b" and "a" (given in that order) is consumed in sorted key
order: the "a" sub-layer is applied first to the input and the "b"
sub-layer is applied to the "a" sub-layer's output, for arbitrary
sub-layer functions, inputs and condition maps. -/
theorem multispade_sorted_sequential_order {X S : Type} (fa fb : X → S → X)
    (x : X) (ya yb : S) :
    multiSpadeForward [("a", fa), ("b", fb)] sortByKey x (Sum.inr [("b", yb), ("a", ya)]) =
      Except.ok (fb (fa x ya) yb) := rfl

/-- Claim C5 (status: confirmed).  A condition-map count different from
the configured sub-layer count makes MultiSpade.forward fail with the
configuration-mismatch assertion (multispade.py lines 57-59); with equal
counts that assertion error is never the result. -/
theorem multispade_count_guard {X S : Type} (spadeLayers : List (String × (X → S → X)))
    (x : X) (d : List (String × S)) :
    (d.length ≠ spadeLayers.length →
        multiSpadeForward spadeLayers sortByKey x (Sum.inr d) =
          Except.error PyErr.assertionError) ∧
      (d.length = spadeLayers.length →
        multiSpadeForward spadeLayers sortByKey x (Sum.inr d) ≠
          Except.error PyErr.assertionError) := by
  constructor
  · intro hne
    simp [multiSpadeForward, hne]
  · intro heq
    simpa [multiSpadeForward, heq] using msApply_ne_assertionError spadeLayers x (sortByKey d)

theorem multispade_count_guard_witness :
    multiSpadeForward msLayersTwo sortByKey 0 (Sum.inr [("a", 5)]) =
        Except.error PyErr.assertionError ∧
      multiSpadeForward msLayersTwo sortByKey 0 (Sum.inr [("a", 5), ("b", 6)]) ≠
        Except.error PyErr.assertionError :=
  ⟨(multispade_count_guard msLayersTwo 0 [("a", 5)]).1 (by decide),
   (multispade_count_guard msLayersTwo 0 [("a", 5), ("b", 6)]).2 (by decide)⟩

/-- Claim C6 (status: confirmed).  A bare tensor passed instead of a
condition-map set is auto-wrapped under the sub-layer's key when exactly
one sub-layer exists and the call proceeds; with more than one sub-layer
the call fails with the ambiguity `ValueError`
(multispade.py lines 66-76). -/
theorem multispade_single_tensor_autowrap {X S : Type} (f : X → S → X) (key : String)
    (x : X) (t : S) (spadeLayers : List (String × (X → S → X)))
    (h : 1 < spadeLayers.length) :
    multiSpadeForward [(key, f)] sortByKey x (Sum.inl t) = Except.ok (f x t) ∧
      multiSpadeForward spadeLayers sortByKey x (Sum.inl t) =
        Except.error PyErr.valueError := by
  constructor
  · simp [multiSpadeForward, tryFixSegmapsDict, sortByKey, insertByKey, msApply, lookupKey]
  · have hne : spadeLayers.length ≠ 1 := by omega
    simp [multiSpadeForward, tryFixSegmapsDict, hne]

theorem multispade_single_tensor_autowrap_witness :
    multiSpadeForward [("default_key", fun (x y : Nat) => x + y)] sortByKey 2 (Sum.inl 3) =
        Except.ok 5 ∧
      multiSpadeForward msLayersTwo sortByKey 2 (Sum.inl 3) =
        Except.error PyErr.valueError :=
  multispade_single_tensor_autowrap (fun x y => x + y) "default_key" 2 3 msLayersTwo (by decide)

/-- Claim C7 (status: code bug).  With `n_frames_total = 1` and absent
previous inputs, the forward pass substitutes zero tensors without
failing, with batch/spatial sizes from the current condition map — but
BOTH zero tensors get channel width `self.in_channels`
(sams_generator.py line 187), so the previous-condition tensor's width is
3 here and not the configured encoder-condition width 7. -/
theorem sams_prev_labelmap_zeros_width_bug :
    samsForwardPrep hpSevenEnc none none [("densepose", refMap)] =
        Except.ok (zerosT4 2 3 4 4, zerosT4 2 3 4 4) ∧
      encLabelChannels cOfSeven hpSevenEnc = 7 ∧
      samsInChannels hpSevenEnc = 3 ∧ (3 : Nat) ≠ 7 := by
  exact ⟨rfl, rfl, rfl, by decide⟩

/-- Claim C8 counterexample.  On a concrete training batch the step never
completes — the forward call raises — so the cache is written once with
the 3-channel slice (never the full frame) and is never read: the forward
result is identical whether the cache holds that slice or nothing at
all. -/
theorem training_step_cache_counterexample :
    (trainingStep ⟨1, false⟩ id (fun _ flowsT => flowsT) id id batchSmall).2.2 =
        Except.error PyErr.typeError ∧
      (trainingStep ⟨1, false⟩ id (fun _ flowsT => flowsT) id id batchSmall).1 =
        [[[(1 : ℚ)], [2], [3]]] ∧
      [[(1 : ℚ)], [2], [3]] ≠ batchSmall.image ∧
      unetForward ⟨1, false⟩ id (fun _ flowsT => flowsT) id id (some [[(1 : ℚ)], [2], [3]])
          batchSmall.personInputs batchSmall.clothInputs none =
        unetForward ⟨1, false⟩ id (fun _ flowsT => flowsT) id id none
          batchSmall.personInputs batchSmall.clothInputs none ∧
      (some [[(1 : ℚ)], [2], [3]] : Option Tensor) ≠ none := by
  refine ⟨rfl, rfl, ?_, rfl, by simp⟩
  intro hc
  have hlen := congrArg List.length hc
  simp [batchSmall] at hlen

/-- Claim C8 (status: corrected).  In every training step the cache is
assigned exactly once — the pre-forward write of the first three image
channels (unet_mask_model.py line 124) — after which the forward call
raises, so the step aborts: the cache is never read (the forward result
does not depend on it) and the post-forward full-frame write of line 158
is unreachable. -/
theorem training_step_single_write_then_abort (hp : UnetHP) (unet : Tensor → Tensor)
    (resample : Tensor → Tensor → Tensor) (tanhF sigmoidF : ℚ → ℚ) (batch : TBatch)
    (h : 1 ≤ hp.nFramesTotal) :
    trainingStep hp unet resample tanhF sigmoidF batch =
        ([channelSlice batch.image 0 3], some (channelSlice batch.image 0 3),
          Except.error (forwardErr hp (if hp.flow then some batch.flow else none))) ∧
      ∀ p q : Option Tensor,
        unetForward hp unet resample tanhF sigmoidF p batch.personInputs batch.clothInputs
            (if hp.flow then some batch.flow else none) =
          unetForward hp unet resample tanhF sigmoidF q batch.personInputs batch.clothInputs
            (if hp.flow then some batch.flow else none) := by
  constructor
  · simp only [trainingStep]
    rw [unetForward_eq_error _ _ _ _ _ _ _ _ _ h]
  · intro p q
    rw [unetForward_eq_error _ _ _ _ _ _ _ _ _ h, unetForward_eq_error _ _ _ _ _ _ _ _ _ h]

theorem training_step_single_write_then_abort_witness :
    trainingStep ⟨1, true⟩ id (fun _ flowsT => flowsT) id id batchSmall =
        ([channelSlice batchSmall.image 0 3], some (channelSlice batchSmall.image 0 3),
          Except.error (forwardErr ⟨1, true⟩
            (if (⟨1, true⟩ : UnetHP).flow then some batchSmall.flow else none))) ∧
      ∀ p q : Option Tensor,
        unetForward ⟨1, true⟩ id (fun _ flowsT => flowsT) id id p batchSmall.personInputs
            batchSmall.clothInputs
            (if (⟨1, true⟩ : UnetHP).flow then some batchSmall.flow else none) =
          unetForward ⟨1, true⟩ id (fun _ flowsT => flowsT) id id q batchSmall.personInputs
            batchSmall.clothInputs
            (if (⟨1, true⟩ : UnetHP).flow then some batchSmall.flow else none) :=
  training_step_single_write_then_abort ⟨1, true⟩ id (fun _ flowsT => flowsT) id id
    batchSmall (by decide)

/-- Claim C9 (status: confirmed).  For every input with
`n_frames_total ≥ 1`, UnetMaskModel.forward raises before returning: with
flows absent, `torch.chunk(None, ...)` raises `TypeError`; with a flows
tensor, either the entry assertion fails (`n_frames_total > 1`) or the
single chunk produced under `n_frames_total = 1` makes the frame-slice
selection `flows[1]` raise `IndexError` — so the compositing contract is
unreachable. -/
theorem unet_forward_always_raises (hp : UnetHP) (unet : Tensor → Tensor)
    (resample : Tensor → Tensor → Tensor) (tanhF sigmoidF : ℚ → ℚ)
    (prevFrame : Option Tensor) (person warpedCloths : Tensor) (flows : Option Tensor)
    (h : 1 ≤ hp.nFramesTotal) :
    unetForward hp unet resample tanhF sigmoidF prevFrame person warpedCloths flows =
      Except.error (forwardErr hp flows) :=
  unetForward_eq_error hp unet resample tanhF sigmoidF prevFrame person warpedCloths flows h

theorem unet_forward_always_raises_witness :
    unetForward ⟨1, true⟩ id (fun _ flowsT => flowsT) id id none [[1]] [[2]] (some [[0]]) =
      Except.error PyErr.indexError :=
  unet_forward_always_raises ⟨1, true⟩ id (fun _ flowsT => flowsT) id id none [[1]] [[2]]
    (some [[0]]) (by decide)

/-- Claim C10 (status: confirmed).  The generator's encoder input width is
`RGB_CHANNELS * max(n_frames_total - 1, 1)` and the encoder condition
width is the encoder input map's channel count times the same clamped
factor (sams_generator.py lines 99-110); the clamp is at least 1 for every
`n_frames_total ≥ 1`, and both `n_frames_total = 1` and
`n_frames_total = 2` give the identical 3-channel input width. -/
theorem sams_channel_clamping (hp : SamsHP) (channelsOf : String → Nat)
    (_h : 1 ≤ hp.nFramesTotal) :
    samsInChannels hp = RGB_CHANNELS * max (hp.nFramesTotal - 1) 1 ∧
      encLabelChannels channelsOf hp =
        channelsOf hp.encoderInput * max (hp.nFramesTotal - 1) 1 ∧
      1 ≤ numPrevFrames hp ∧
      ((hp.nFramesTotal = 1 ∨ hp.nFramesTotal = 2) → samsInChannels hp = 3) := by
  refine ⟨rfl, rfl, le_max_right _ _, ?_⟩
  intro hcase
  rcases hcase with h1 | h1 <;>
    simp [samsInChannels, numPrevFrames, RGB_CHANNELS, h1]

theorem sams_channel_clamping_witness :
    samsInChannels hpTwoFrames =
        RGB_CHANNELS * max (hpTwoFrames.nFramesTotal - 1) 1 ∧
      encLabelChannels cOfSeven hpTwoFrames =
        cOfSeven hpTwoFrames.encoderInput * max (hpTwoFrames.nFramesTotal - 1) 1 ∧
      1 ≤ numPrevFrames hpTwoFrames ∧
      ((hpTwoFrames.nFramesTotal = 1 ∨ hpTwoFrames.nFramesTotal = 2) →
        samsInChannels hpTwoFrames = 3) :=
  sams_channel_clamping hpTwoFrames cOfSeven (by decide)
